import Mathlib

/-!
Shallow embedding of `src/validateRequest.js` from the
centralized-crypto-coin repository: the request validator and the admin
authorizer (ban check, control-key comparison, ban write), together with
proofs of the specified properties.

Conventions of the embedding:
* JavaScript strings are Lean `String`s; an absent header / `undefined`
  is `Option.none`.
* `parseInt` is modelled by `parseIntJS` (`none` plays the role of `NaN`).
* The external crypto library (`ECDSA.fromCompressedPublicKey`,
  `key.hashAndVerify`) is an abstract oracle `Crypto`; an operation that
  throws is modelled by an `Option.none` result, which the `try/catch`
  of the source turns into the key-malformed 401 response.
* `send(response, status, body)` is modelled by appending a `Response`
  value to the list of responses emitted for the request; `send` returns
  `undefined`, i.e. the function result `none`.
* `isBanned` is an abstract oracle `String → Bool`; a call to `ban` is
  recorded in the `bans` field of the result.
* `Math.random()` is a rational draw `r` with `0 ≤ r < 1`.
-/

namespace CryptoCoin

/-- An HTTP error response as produced by `send(response, status, {success, error})`. -/
structure Response where
  status : Nat
  success : Bool
  error : String
deriving DecidableEq, Repr

/-- The request headers read by the source (Node lower-cases header names);
`none` models an absent header (`undefined`). -/
structure Headers where
  contentLength : Option String
  contentType : Option String
  xPublicKey : Option String
  xSignature : Option String
  xRealIp : Option String
  xForwardedFor : Option String
deriving DecidableEq, Repr

/-- An incoming request: method, pathname, headers, the raw body obtained by
`text(request)`, and the transport-level peer address
(`request.connection.remoteAddress`). -/
structure Request where
  method : String
  pathname : String
  headers : Headers
  body : String
  remoteAddress : String
deriving DecidableEq, Repr

/-- The endpoint table passed to the validator: `endpoints[method][path]`
truthiness plus the scalar `endpoints.MAX_CONTENT_LENGTH`. -/
structure Endpoints where
  table : String → Option (String → Bool)
  MAX_CONTENT_LENGTH : Int

/-- Negation of line 9's condition
`!endpoints[request.method] || !endpoints[request.method][request.pathname]`:
the endpoint exists. -/
def Endpoints.hasEndpoint (ep : Endpoints) (m p : String) : Bool :=
  match ep.table m with
  | none => false
  | some paths => paths p

/-- The external ECDSA library, abstracted: `fromCompressedPublicKey` parses a
base64 compressed P-256 key (`none` = parse failure / throw) and
`hashAndVerify key body signature` verifies an ECDSA signature over
SHA-256 of the body (`none` = throw, `some b` = boolean verdict). -/
structure Crypto (Key : Type) where
  fromCompressedPublicKey : String → Option Key
  hashAndVerify : Key → String → String → Option Bool

/-- Digit run at the front of a character list, as a number; `none` when there
is no digit. -/
def parseDigits (cs : List Char) : Option Nat :=
  let ds := cs.takeWhile (fun c => c.isDigit)
  if ds.isEmpty then none
  else some (ds.foldl (fun a c => a * 10 + (c.toNat - 48)) 0)

/-- JavaScript `parseInt` on a header value: `undefined` gives `NaN` (`none`);
otherwise leading spaces are skipped, an optional sign is read, and the
longest decimal-digit prefix is converted (`none` when there is none). -/
def parseIntJS : Option String → Option Int
  | none => none
  | some s =>
    match s.toList.dropWhile (fun c => c = ' ') with
    | '-' :: rest => (parseDigits rest).map (fun n => -(n : Int))
    | '+' :: rest => (parseDigits rest).map (fun n => (n : Int))
    | cs => (parseDigits cs).map (fun n => (n : Int))

/-- The condition of line 17 of the source:
`!contentLength || contentLength > maxContentLength || rawBody.length > contentLength`
(`!x` is true for `NaN` and for `0`). -/
def clBad (cl : Option Int) (maxLen : Int) (bodyLen : Nat) : Bool :=
  match cl with
  | none => true
  | some n => decide (n = 0) || decide (maxLen < n) || decide ((bodyLen : Int) > n)

/-- The accepted content types of line 24 of the source. -/
def acceptedContentTypes : List String :=
  ["application/json", "application/json; charset=utf-8"]

/-- Line 25's membership test
`acceptedContentTypes.includes(request.headers['content-type'])`. -/
def contentTypeOk (h : Option String) : Bool :=
  match h with
  | none => false
  | some s => acceptedContentTypes.contains s

/-- JavaScript truthiness of a string-valued header: absent (`undefined`) and
the empty string are falsy. -/
def jsTruthyStr (v : Option String) : Bool :=
  match v with
  | none => false
  | some s => decide (s ≠ "")

/-- JavaScript `v || fallback` on string values. -/
def jsOrStr (v : Option String) (fallback : String) : String :=
  match v with
  | none => fallback
  | some s => if s = "" then fallback else s

/-- The 404 response of line 10. -/
def notFoundResp : Response := ⟨404, false, "Not found"⟩

/-- The 413 response of lines 18-21; the message interpolates
`maxContentLength` and the parsed `contentLength` (printing `NaN` when the
parse failed). -/
def contentLengthResp (maxLen : Int) (cl : Option Int) : Response :=
  ⟨413, false,
    "Content length should be less than " ++ toString maxLen ++ " (but is " ++
      (match cl with | none => "NaN" | some n => toString n) ++ ")"⟩

/-- The 400 response of lines 26-29. -/
def contentTypeResp : Response :=
  ⟨400, false,
    "Header \"Content-Type\" should be one of \"application/json\", \"application/json; charset=utf-8\""⟩

/-- The 401 response of lines 35-38 (missing signature headers). -/
def missingHeadersResp : Response :=
  ⟨401, false, "Header should contain \"X-Public-Key\" and \"X-Signature\""⟩

/-- The 401 response of lines 43-46 (signature does not verify). -/
def sigInvalidResp : Response :=
  ⟨401, false,
    "Header \"X-Signature\" does not verify (public key, BASE64(SIGN(SHA256(content))))"⟩

/-- The 401 response of lines 49-53 (catch branch: malformed key). -/
def keyMalformedResp : Response :=
  ⟨401, false,
    "Header \"X-Public-Key\" should be the compressed public key (264 bites) base64 encoded"⟩

/-- The 401 response of line 72 (banned source address). -/
def bannedResp : Response := ⟨401, false, "Banned"⟩

/-- The 401 response of lines 78-81 (key is not the control key). -/
def notControlKeyResp : Response :=
  ⟨401, false, "Header \"X-Public-Key\" should be the control key"⟩

/-- Lines 7-57, `validateRequest(request, response, endpoints)`.  The result
is the list of responses sent for the request paired with the returned value:
`some true` for `return true`, `none` for `return send(...)` (`send` returns
`undefined`). -/
def validateRequest {K : Type} (C : Crypto K) (req : Request) (ep : Endpoints) :
    List Response × Option Bool :=
  if ¬ ep.hasEndpoint req.method req.pathname then
    ([notFoundResp], none)
  else if req.method = "POST" then
    if clBad (parseIntJS req.headers.contentLength) ep.MAX_CONTENT_LENGTH
        req.body.length then
      ([contentLengthResp ep.MAX_CONTENT_LENGTH (parseIntJS req.headers.contentLength)],
        none)
    else if ¬ contentTypeOk req.headers.contentType then
      ([contentTypeResp], none)
    else if ¬ jsTruthyStr req.headers.xPublicKey ∨ ¬ jsTruthyStr req.headers.xSignature then
      ([missingHeadersResp], none)
    else
      match req.headers.xPublicKey, req.headers.xSignature with
      | some pk, some sig =>
        match C.fromCompressedPublicKey pk with
        | none => ([keyMalformedResp], none)
        | some key =>
          match C.hashAndVerify key req.body sig with
          | none => ([keyMalformedResp], none)
          | some false => ([sigInvalidResp], none)
          | some true => ([], some true)
      | _, _ => ([missingHeadersResp], none)
  else ([], some true)

/-- Lines 59-65, `getIp(request)`. -/
def getIp (req : Request) : String :=
  jsOrStr req.headers.xRealIp (jsOrStr req.headers.xForwardedFor req.remoteAddress)

/-- Line 68 tests `validateRequest(request, response, endpoints)` without
`await`: the tested value is the pending Promise object, which is always
truthy, whatever the validator later resolves to. -/
def promiseTruthy : Bool := true

/-- The ban duration of line 77: `5 * MINUTE + Math.ceil(Math.random() * 30)`
where `r` models the `Math.random()` draw. -/
def banDuration (r : ℚ) : Int := 5 * 60 + Int.ceil (r * 30)

/-- The result of `checkAdminRequest`: responses sent, `ban(ip, seconds)`
calls made, and the returned value (`some true` for `return true`, `none`
for `return send(...)` and for the implicit `undefined`). -/
structure AdminResult where
  responses : List Response
  bans : List (String × Int)
  result : Option Bool
deriving DecidableEq, Repr

/-- Lines 67-87, `checkAdminRequest(request, response, endpoints)`.
`isBanned` and `controlKey` model the external ban store and
`(await getPublicControlKey()).toCompressedPublicKey()`; `r` models the
`Math.random()` draw of line 77.  The call to `validateRequest` still runs
(its responses are part of the trace), but the branch condition of line 68
is the truthiness of its un-awaited Promise. -/
def checkAdminRequest {K : Type} (C : Crypto K) (isBanned : String → Bool)
    (controlKey : String) (r : ℚ) (req : Request) (ep : Endpoints) : AdminResult :=
  let v := validateRequest C req ep
  if promiseTruthy then
    if req.method = "POST" then
      let ip := getIp req
      if isBanned ip then
        ⟨v.1 ++ [bannedResp], [], none⟩
      else if some controlKey ≠ req.headers.xPublicKey then
        ⟨v.1 ++ [notControlKeyResp], [(ip, banDuration r)], none⟩
      else
        ⟨v.1, [], some true⟩
    else ⟨v.1, [], some true⟩
  else ⟨v.1, [], none⟩

/-- A crypto oracle over the trivial key type that accepts every key and
verifies every signature; used to evaluate concrete runs. -/
def oracleOk : Crypto Unit :=
  ⟨fun _ => some (), fun _ _ _ => some true⟩

/-- A sample endpoint table: `POST /admin` and `GET /admin` exist,
`MAX_CONTENT_LENGTH` is 1000. -/
def epSample : Endpoints :=
  ⟨fun m => if m = "POST" ∨ m = "GET" then some (fun p => p == "/admin") else none, 1000⟩

/-- Headers of a well-formed signed POST carrying public key `AA`. -/
def headersValid : Headers :=
  ⟨some "5", some "application/json", some "AA", some "SIG", none, none⟩

/-- A well-formed signed POST to `/admin` (body of declared length) from
`1.2.3.4`. -/
def reqValid : Request :=
  ⟨"POST", "/admin", headersValid, "hello", "1.2.3.4"⟩

/-- A POST to `/admin` declaring `Content-Length: 0` with an empty body. -/
def reqZeroCL : Request :=
  ⟨"POST", "/admin", ⟨some "0", some "application/json", some "AA", some "SIG", none, none⟩,
    "", "1.2.3.4"⟩

/-- A well-formed signed POST to the non-existent path `/nope` from
`9.9.9.9`. -/
def reqPostNope : Request :=
  ⟨"POST", "/nope", headersValid, "hello", "9.9.9.9"⟩

/-- A GET to the non-existent path `/nope`. -/
def reqGetNope : Request :=
  ⟨"GET", "/nope", ⟨none, none, none, none, none, none⟩, "", "9.9.9.9"⟩

/-- A GET to `/admin`. -/
def reqGetAdmin : Request :=
  ⟨"GET", "/admin", ⟨none, none, none, none, none, none⟩, "", "1.2.3.4"⟩

/-- Case analysis on the validator: it either admits the request having sent
no response, or sends exactly one response (with one of the four failure
statuses) and returns `undefined`. -/
theorem validateRequest_cases {K : Type} (C : Crypto K) (req : Request) (ep : Endpoints) :
    validateRequest C req ep = ([], some true) ∨
      ∃ resp, validateRequest C req ep = ([resp], none) ∧
        (resp.status = 404 ∨ resp.status = 413 ∨ resp.status = 400 ∨ resp.status = 401) := by
  unfold validateRequest
  repeat' split
  all_goals first
    | exact Or.inl rfl
    | exact Or.inr ⟨_, rfl, by
        simp [notFoundResp, contentLengthResp, contentTypeResp, missingHeadersResp,
          keyMalformedResp, sigInvalidResp]⟩

/-- If the validator admits the request, it has sent no response. -/
theorem validateRequest_success_responses {K : Type} (C : Crypto K) (req : Request)
    (ep : Endpoints) (h : (validateRequest C req ep).2 = some true) :
    (validateRequest C req ep).1 = [] := by
  rcases validateRequest_cases C req ep with hc | ⟨resp, hc, _⟩
  · rw [hc]
  · rw [hc] at h
    simp at h

/-- C7: `validateRequest` is total: for every request and every behaviour of
the crypto oracle (including key parsing or signature verification throwing,
modelled by `none` results), no exception escapes — the validator either
admits the request, or sends exactly one terminal HTTP response (status 404,
413, 400 or 401) and returns control to the caller. -/
theorem validateRequest_total_outcomes {K : Type} (C : Crypto K) (req : Request)
    (ep : Endpoints) :
    validateRequest C req ep = ([], some true) ∨
      ∃ resp, validateRequest C req ep = ([resp], none) ∧
        (resp.status = 404 ∨ resp.status = 413 ∨ resp.status = 400 ∨ resp.status = 401) :=
  validateRequest_cases C req ep

/-- C8: when the request's method is absent from the endpoint table, or its
pathname is absent under that method, `validateRequest` responds 404 with
body `{success:false, error:"Not found"}`, regardless of body or headers. -/
theorem validateRequest_notFound_404 {K : Type} (C : Crypto K) (req : Request)
    (ep : Endpoints)
    (h : ep.table req.method = none ∨
      ∃ paths, ep.table req.method = some paths ∧ paths req.pathname = false) :
    validateRequest C req ep = ([notFoundResp], none) := by
  have he : ep.hasEndpoint req.method req.pathname = false := by
    unfold Endpoints.hasEndpoint
    rcases h with h | ⟨paths, h1, h2⟩
    · rw [h]
    · rw [h1]
      exact h2
  simp [validateRequest, he]

/-- Witness for C8: a GET to the unknown path `/nope` gets the 404 response. -/
theorem validateRequest_notFound_404_witness :
    validateRequest oracleOk reqGetNope epSample = ([notFoundResp], none) :=
  validateRequest_notFound_404 oracleOk reqGetNope epSample (Or.inr ⟨_, rfl, rfl⟩)

/-- C9: a request whose method is not POST, aimed at an endpoint present in
the table, is admitted (`true`, no response sent) whatever its body and its
content-length, content-type, key and signature headers are. -/
theorem validateRequest_nonPost_admitted {K : Type} (C : Crypto K) (req : Request)
    (ep : Endpoints) (hm : req.method ≠ "POST")
    (he : ep.hasEndpoint req.method req.pathname = true) :
    validateRequest C req ep = ([], some true) := by
  simp [validateRequest, he, hm]

/-- Witness for C9: a bare GET to `/admin` is admitted. -/
theorem validateRequest_nonPost_admitted_witness :
    validateRequest oracleOk reqGetAdmin epSample = ([], some true) :=
  validateRequest_nonPost_admitted oracleOk reqGetAdmin epSample (by decide) rfl

/-- C10: a POST to an existing endpoint whose Content-Length header parses to
0 is rejected with the 413 response even when the body is empty and
`MAX_CONTENT_LENGTH` is positive: the falsy declared length 0 is treated like
a missing or non-numeric header. -/
theorem validateRequest_zero_contentLength_413 {K : Type} (C : Crypto K) (req : Request)
    (ep : Endpoints) (hm : req.method = "POST")
    (he : ep.hasEndpoint req.method req.pathname = true)
    (hcl : parseIntJS req.headers.contentLength = some 0)
    (hbody : req.body = "") (hmax : 0 < ep.MAX_CONTENT_LENGTH) :
    validateRequest C req ep =
      ([contentLengthResp ep.MAX_CONTENT_LENGTH (some 0)], none) := by
  have he2 : ep.hasEndpoint "POST" req.pathname = true := hm ▸ he
  have hbad : clBad (some 0) ep.MAX_CONTENT_LENGTH req.body.length = true := by
    simp [clBad]
  simp [validateRequest, hm, he2, hcl, hbad]

/-- Witness for C10: `Content-Length: 0` with an empty body and
`MAX_CONTENT_LENGTH = 1000` is rejected with 413. -/
theorem validateRequest_zero_contentLength_413_witness :
    validateRequest oracleOk reqZeroCL epSample = ([contentLengthResp 1000 (some 0)], none) :=
  validateRequest_zero_contentLength_413 oracleOk reqZeroCL epSample rfl rfl (by decide)
    rfl (by decide)

/-- C2: the validator admits a request (returns `true`) only if the method is
not POST, or the X-Public-Key header parses as a valid compressed public key
and the X-Signature header verifies against the raw body under that key. -/
theorem validateRequest_admits_only_verified {K : Type} (C : Crypto K) (req : Request)
    (ep : Endpoints) (h : (validateRequest C req ep).2 = some true) :
    req.method ≠ "POST" ∨
      ∃ pk sig key, req.headers.xPublicKey = some pk ∧ req.headers.xSignature = some sig ∧
        C.fromCompressedPublicKey pk = some key ∧
        C.hashAndVerify key req.body sig = some true := by
  by_cases hm : req.method = "POST"
  · right
    unfold validateRequest at h
    repeat' split at h
    all_goals try (simp at h)
    rename_i x3 x2 pk sig hpk hsig x1 key hkey x0 hvf
    exact ⟨pk, sig, key, hpk, hsig, hkey, hvf⟩
  · exact Or.inl hm

/-- Witness for C2: the all-accepting oracle admits `reqValid`, whose key
parses and whose signature verifies. -/
theorem validateRequest_admits_only_verified_witness :
    reqValid.method ≠ "POST" ∨
      ∃ pk sig key, reqValid.headers.xPublicKey = some pk ∧
        reqValid.headers.xSignature = some sig ∧
        oracleOk.fromCompressedPublicKey pk = some key ∧
        oracleOk.hashAndVerify key reqValid.body sig = some true :=
  validateRequest_admits_only_verified oracleOk reqValid epSample rfl

/-- C3: for a POST that passed validation from a non-banned address, the
control-key comparison is byte-for-byte equality of the compressed encodings
carried in `X-Public-Key` and the control key: equal encodings admit the
request (`true`, no further response, no ban), different encodings produce
the 401 not-control-key response and a ban. -/
theorem checkAdminRequest_controlKey_byte_equality {K : Type} (C : Crypto K)
    (isBanned : String → Bool) (controlKey : String) (r : ℚ) (req : Request)
    (ep : Endpoints) (hm : req.method = "POST")
    (hv : (validateRequest C req ep).2 = some true)
    (hnb : isBanned (getIp req) = false) :
    (req.headers.xPublicKey = some controlKey →
        checkAdminRequest C isBanned controlKey r req ep = ⟨[], [], some true⟩) ∧
      (req.headers.xPublicKey ≠ some controlKey →
        checkAdminRequest C isBanned controlKey r req ep =
          ⟨[notControlKeyResp], [(getIp req, banDuration r)], none⟩) := by
  have hresp := validateRequest_success_responses C req ep hv
  constructor
  · intro heq
    simp [checkAdminRequest, promiseTruthy, hm, hnb, hresp, heq]
  · intro hne
    have hne2 : some controlKey ≠ req.headers.xPublicKey := fun hcontra => hne hcontra.symm
    simp [checkAdminRequest, promiseTruthy, hm, hnb, hresp, hne2]

/-- Witness for C3: under the all-accepting oracle, `reqValid` (key `AA`) is
admitted when the control key is `AA` and would be rejected were its key
different. -/
theorem checkAdminRequest_controlKey_byte_equality_witness :
    (reqValid.headers.xPublicKey = some "AA" →
        checkAdminRequest oracleOk (fun _ => false) "AA" 0 reqValid epSample =
          ⟨[], [], some true⟩) ∧
      (reqValid.headers.xPublicKey ≠ some "AA" →
        checkAdminRequest oracleOk (fun _ => false) "AA" 0 reqValid epSample =
          ⟨[notControlKeyResp], [(getIp reqValid, banDuration 0)], none⟩) :=
  checkAdminRequest_controlKey_byte_equality oracleOk (fun _ => false) "AA" 0 reqValid
    epSample rfl rfl rfl

/-- C6: a POST that passed validation but comes from a banned address gets
exactly the 401 `Banned` response; no ban is written, nothing is returned,
and the outcome does not depend on the control key or on the random draw
(the control key is never read). -/
theorem checkAdminRequest_banned_short_circuit {K : Type} (C : Crypto K)
    (isBanned : String → Bool) (controlKey controlKey2 : String) (r r2 : ℚ)
    (req : Request) (ep : Endpoints) (hm : req.method = "POST")
    (hv : (validateRequest C req ep).2 = some true)
    (hb : isBanned (getIp req) = true) :
    checkAdminRequest C isBanned controlKey r req ep = ⟨[bannedResp], [], none⟩ ∧
      checkAdminRequest C isBanned controlKey r req ep =
        checkAdminRequest C isBanned controlKey2 r2 req ep := by
  have hresp := validateRequest_success_responses C req ep hv
  have h1 : ∀ (ck : String) (rr : ℚ),
      checkAdminRequest C isBanned ck rr req ep = ⟨[bannedResp], [], none⟩ := by
    intro ck rr
    simp [checkAdminRequest, promiseTruthy, hm, hb, hresp]
  exact ⟨h1 controlKey r, (h1 controlKey r).trans (h1 controlKey2 r2).symm⟩

/-- Witness for C6: a banned `reqValid` gets the `Banned` response whatever
the control key and the draw are. -/
theorem checkAdminRequest_banned_short_circuit_witness :
    checkAdminRequest oracleOk (fun _ => true) "CK" 0 reqValid epSample =
        ⟨[bannedResp], [], none⟩ ∧
      checkAdminRequest oracleOk (fun _ => true) "CK" 0 reqValid epSample =
        checkAdminRequest oracleOk (fun _ => true) "ZZ" (1/2) reqValid epSample :=
  checkAdminRequest_banned_short_circuit oracleOk (fun _ => true) "CK" "ZZ" 0 (1/2)
    reqValid epSample rfl rfl rfl

/-- C5 (amended): every ban written by `checkAdminRequest` has duration
`300 + ceil(r * 30)` seconds: at least 300 and at most 330 for every draw
`r` of `Math.random()` (and strictly more than 300 only when the draw is
nonzero). -/
theorem checkAdminRequest_ban_duration_bounds {K : Type} (C : Crypto K)
    (isBanned : String → Bool) (controlKey : String) (r : ℚ) (req : Request)
    (ep : Endpoints) (ip : String) (d : Int) (h0 : 0 ≤ r) (h1 : r < 1)
    (hmem : (ip, d) ∈ (checkAdminRequest C isBanned controlKey r req ep).bans) :
    300 ≤ d ∧ d ≤ 330 := by
  have hd : d = banDuration r := by
    simp only [checkAdminRequest, promiseTruthy, if_true] at hmem
    repeat' split at hmem
    all_goals simp_all
  have hc0 : 0 ≤ Int.ceil (r * 30) := Int.ceil_nonneg (mul_nonneg h0 (by norm_num))
  have hc30 : Int.ceil (r * 30) ≤ 30 := by
    rw [Int.ceil_le]
    push_cast
    linarith
  rw [hd]
  unfold banDuration
  constructor
  · linarith
  · linarith

/-- Witness for C5: the draw `1/2` yields a ban of `banDuration (1/2)`
seconds on `reqValid` with a wrong control key, and that duration lies in
`[300, 330]`. -/
theorem checkAdminRequest_ban_duration_bounds_witness :
    300 ≤ banDuration (1/2) ∧ banDuration (1/2) ≤ 330 :=
  checkAdminRequest_ban_duration_bounds oracleOk (fun _ => false) "CK" (1/2) reqValid
    epSample "1.2.3.4" (banDuration (1/2)) (by norm_num) (by norm_num)
    (by simp [checkAdminRequest, promiseTruthy, reqValid, headersValid, validateRequest,
      epSample, getIp, jsOrStr])

/-- C5 fails as stated: `Math.random()` can return exactly 0 (it draws from
`[0, 1)`), in which case `Math.ceil(0 * 30) = 0` and the ban duration is
exactly 300 seconds, so the expiry is not strictly above `now + 300s`. -/
theorem checkAdminRequest_ban_duration_zero_draw :
    (0:ℚ) ≤ 0 ∧ (0:ℚ) < 1 ∧
      (checkAdminRequest oracleOk (fun _ => false) "CK" 0 reqValid epSample).bans =
        [("1.2.3.4", banDuration 0)] ∧
      banDuration 0 = 300 ∧ ¬ (300:Int) < banDuration 0 := by
  refine ⟨le_refl 0, by norm_num, rfl, by simp [banDuration], by simp [banDuration]⟩

/-- C1 (code bug): line 68 tests the validator's un-awaited Promise, which is
always truthy, so a validator failure does not stop `checkAdminRequest`: on a
POST to an unknown path the 404 response is followed by the ban check, a ban
write and a second (401) response, and on a GET to an unknown path
`checkAdminRequest` returns `true` after the 404 was sent. -/
theorem checkAdminRequest_runs_after_validator_failure :
    validateRequest oracleOk reqPostNope epSample = ([notFoundResp], none) ∧
      checkAdminRequest oracleOk (fun _ => false) "CK" 0 reqPostNope epSample =
        ⟨[notFoundResp, notControlKeyResp], [("9.9.9.9", banDuration 0)], none⟩ ∧
      validateRequest oracleOk reqGetNope epSample = ([notFoundResp], none) ∧
      checkAdminRequest oracleOk (fun _ => false) "CK" 0 reqGetNope epSample =
        ⟨[notFoundResp], [], some true⟩ :=
  ⟨by decide, rfl, by decide, by decide⟩

/-- The boolean condition of line 17 spelt as a predicate on the parsed
Content-Length: missing/non-numeric (`NaN`), zero, above the maximum, or
smaller than the actual body length. -/
theorem clBad_iff (cl : Option Int) (maxLen : Int) (bodyLen : Nat) :
    clBad cl maxLen bodyLen = true ↔
      (cl = none ∨ cl = some 0 ∨
        ∃ n, cl = some n ∧ (maxLen < n ∨ (bodyLen : Int) > n)) := by
  cases cl <;> simp [clBad, or_assoc]

/-- C4 (amended): for a POST to an existing endpoint, the content-length
check fails with the 413 response if and only if the Content-Length header is
missing or non-numeric, OR it parses to 0, OR the declared length exceeds
`MAX_CONTENT_LENGTH`, OR the actual body length exceeds the declared length;
in particular a body shorter than a positive, within-bounds declared length
is not rejected by this check. -/
theorem contentLength_check_413_iff {K : Type} (C : Crypto K) (req : Request)
    (ep : Endpoints) (hm : req.method = "POST")
    (he : ep.hasEndpoint req.method req.pathname = true) :
    validateRequest C req ep =
        ([contentLengthResp ep.MAX_CONTENT_LENGTH (parseIntJS req.headers.contentLength)],
          none) ↔
      (parseIntJS req.headers.contentLength = none ∨
        parseIntJS req.headers.contentLength = some 0 ∨
        ∃ n, parseIntJS req.headers.contentLength = some n ∧
          (ep.MAX_CONTENT_LENGTH < n ∨ (req.body.length : Int) > n)) := by
  have he2 : ep.hasEndpoint "POST" req.pathname = true := hm ▸ he
  rw [← clBad_iff (parseIntJS req.headers.contentLength) ep.MAX_CONTENT_LENGTH
    req.body.length]
  constructor
  · intro hval
    by_contra hbad
    rw [Bool.not_eq_true] at hbad
    simp [validateRequest, hm, he2, hbad] at hval
    repeat' split at hval
    all_goals simp_all [contentLengthResp, contentTypeResp, missingHeadersResp,
      keyMalformedResp, sigInvalidResp]
  · intro hbad
    simp [validateRequest, hm, he2, hbad]

/-- Witness for C4: at `reqZeroCL` (Content-Length 0, empty body) both sides
of the equivalence hold: the 413 response is emitted and the declared length
parses to 0. -/
theorem contentLength_check_413_iff_witness :
    validateRequest oracleOk reqZeroCL epSample =
        ([contentLengthResp epSample.MAX_CONTENT_LENGTH
          (parseIntJS reqZeroCL.headers.contentLength)], none) ↔
      (parseIntJS reqZeroCL.headers.contentLength = none ∨
        parseIntJS reqZeroCL.headers.contentLength = some 0 ∨
        ∃ n, parseIntJS reqZeroCL.headers.contentLength = some n ∧
          (epSample.MAX_CONTENT_LENGTH < n ∨ (reqZeroCL.body.length : Int) > n)) :=
  contentLength_check_413_iff oracleOk reqZeroCL epSample rfl rfl

/-- C4 fails as stated: a POST declaring `Content-Length: 0` with an empty
body satisfies none of the claim's three failure conditions (the header is
present and numeric, 0 does not exceed the maximum of 1000, and the body
length 0 does not exceed the declared 0), yet the 413 response is emitted. -/
theorem contentLength_zero_declared_cex :
    parseIntJS reqZeroCL.headers.contentLength = some 0 ∧
      ¬ epSample.MAX_CONTENT_LENGTH < 0 ∧
      ¬ ((reqZeroCL.body.length : Int) > 0) ∧
      validateRequest oracleOk reqZeroCL epSample =
        ([contentLengthResp 1000 (some 0)], none) := by decide

end CryptoCoin
